import Mathlib

/-!
Verification of the EvolveAi data-normalization and diagnostic-engine pipeline.

This file gives a shallow embedding, in Lean 4, of the Python source under
`src/`: the field normalizer and format adapters of `src/data_processor.py`,
the per-file ingestion loop of `src/app.py`, the diagnostic engine of
`src/diagnostic_engine.py`, the repair step of
`src/attached_assets/diagnostic_engine_1758097345916.py`, and the data-quality
assessor of `src/attached_assets/data_processor_1758097345922.py`.
Python dicts are modelled as insertion-ordered association lists with
overwrite-in-place semantics; Python floats are modelled as rationals;
external collaborators (the JSON decoder, the reasoning model, pandas, the
PDF text extractor) are modelled as parameters or as already-decoded values.
-/

/- The batteries rational-number operations are `@[irreducible]`, which
blocks `decide` on concrete rational computations; restore the default
reducibility so concrete engine and metric values evaluate. -/
attribute [local semireducible] Rat.mul Rat.add Rat.sub Rat.inv Rat.ofScientific

/-! ## String utilities (Python `lower`, `strip`, `replace`, `in`, `split`) -/

/-- Python whitespace characters relevant to `str.strip()`. -/
def pyWsChar (c : Char) : Bool :=
  c == ' ' || c == '\t' || c == '\n' || c == '\x0d' || c == '\x0b' || c == '\x0c'

/-- Python `str.lower()` (ASCII; the source only handles ASCII field names). -/
def lowerStr (s : String) : String := String.mk (s.data.map Char.toLower)

/-- Drop leading and trailing whitespace from a character list. -/
def trimChars (l : List Char) : List Char :=
  ((l.dropWhile pyWsChar).reverse.dropWhile pyWsChar).reverse

/-- Python `str.strip()`. -/
def stripStr (s : String) : String := String.mk (trimChars s.data)

/-- Python `str.replace(a, b)` for single characters. -/
def replaceChar (a b : Char) (s : String) : String :=
  String.mk (s.data.map (fun c => if c = a then b else c))

/-- Whether `pre` is a leading segment of `l`. -/
def leadsWith : List Char → List Char → Bool
  | [], _ => true
  | _ :: _, [] => false
  | a :: as, b :: bs => a == b && leadsWith as bs

/-- Whether `needle` occurs contiguously inside `hay` (Python `needle in hay`). -/
def containsSub (needle : List Char) : List Char → Bool
  | [] => needle.isEmpty
  | c :: t => leadsWith needle (c :: t) || containsSub needle t

/-- Python substring test `a in b` on strings. -/
def substrOf (a b : String) : Bool := containsSub a.data b.data

/-- Index of the first occurrence of `needle` in `hay` (Python `str.find`,
restricted to the case where the needle is known to occur). -/
def findSubIdx (needle : List Char) : List Char → Nat
  | [] => 0
  | c :: t => if leadsWith needle (c :: t) then 0 else findSubIdx needle t + 1

/-- Python `str.split(c)`: split on every occurrence of one character. -/
def splitOnCharAux (c : Char) : List Char → List (List Char)
  | [] => [[]]
  | x :: t =>
    if x = c then [] :: splitOnCharAux c t
    else
      match splitOnCharAux c t with
      | [] => [[x]]
      | h :: r => (x :: h) :: r

/-- Python `s.split(c)` returning strings. -/
def splitOnCharStr (c : Char) (s : String) : List String :=
  (splitOnCharAux c s.data).map String.mk

/-- Python `s.split(c, 1)`: split at the first occurrence only, if any. -/
def splitFirst (c : Char) : List Char → Option (List Char × List Char)
  | [] => none
  | x :: t =>
    if x = c then some ([], t)
    else
      match splitFirst c t with
      | some (a, b) => some (x :: a, b)
      | none => none

/-- Python `' '.join(parts)`. -/
def joinSpaces : List String → String
  | [] => ""
  | [s] => s
  | s :: t => s ++ " " ++ joinSpaces t

/-- Decidable equality for `Except`, used to evaluate adapter results on
concrete inputs. -/
instance {ε α : Type} [DecidableEq ε] [DecidableEq α] : DecidableEq (Except ε α) :=
  fun a b =>
    match a, b with
    | .ok x, .ok y =>
      if h : x = y then isTrue (by rw [h])
      else isFalse (fun hc => h (by injection hc))
    | .error x, .error y =>
      if h : x = y then isTrue (by rw [h])
      else isFalse (fun hc => h (by injection hc))
    | .ok _, .error _ => isFalse (fun hc => Except.noConfusion hc)
    | .error _, .ok _ => isFalse (fun hc => Except.noConfusion hc)

/-! ## Values and records

A `Value` is one cell of patient data; `valueFilled` mirrors the Python
truthiness test `v is not None and str(v).strip() != ''` used by the
quality assessor. A `PatientRecord` models a Python dict: an association
list in insertion order with unique keys maintained by `dictInsert`. -/

inductive Value where
  | str (s : String)
  | num (n : Int)
  | vnone
  deriving DecidableEq

abbrev PatientRecord := List (String × Value)

/-- Keys of a record, in insertion order. -/
def dictKeys (d : PatientRecord) : List String := d.map (fun p => p.1)

/-- Python `k in d` on a dict. -/
def dictHasKey (d : PatientRecord) (k : String) : Bool :=
  d.any (fun p => p.1 == k)

/-- Python `d[k] = v`: overwrite in place if present, else append. -/
def dictInsert (d : PatientRecord) (k : String) (v : Value) : PatientRecord :=
  if dictHasKey d k then d.map (fun p => if p.1 == k then (k, v) else p)
  else d ++ [(k, v)]

/-! ## Field Normalizer (`DataProcessor._standardize_field_names`) -/

/-- `DataProcessor.field_mappings` from `src/data_processor.py`, in source
order (Python dict insertion order). -/
def field_mappings : List (String × List String) :=
  [ ("patient_id", ["id", "patient_id", "patientid", "patient_number", "mrn"]),
    ("patient_name", ["name", "patient_name", "patientname", "full_name", "fullname"]),
    ("age", ["age", "patient_age", "age_years"]),
    ("gender", ["gender", "sex", "patient_gender", "patient_sex"]),
    ("date_of_birth", ["dob", "date_of_birth", "birth_date", "birthdate"]),
    ("chief_complaint", ["chief_complaint", "cc", "complaint", "presenting_complaint"]),
    ("symptoms", ["symptoms", "symptom", "clinical_symptoms", "presenting_symptoms"]),
    ("temperature", ["temperature", "temp", "body_temp", "body_temperature"]),
    ("blood_pressure", ["blood_pressure", "bp", "systolic_diastolic", "pressure"]),
    ("heart_rate", ["heart_rate", "hr", "pulse", "pulse_rate", "bpm"]),
    ("respiratory_rate", ["respiratory_rate", "rr", "breathing_rate", "resp_rate"]),
    ("oxygen_saturation", ["oxygen_saturation", "o2_sat", "spo2", "oxygen_sat"]),
    ("medical_history", ["medical_history", "pmh", "past_medical_history", "history"]),
    ("medications", ["medications", "meds", "current_medications", "prescriptions"]),
    ("allergies", ["allergies", "drug_allergies", "medication_allergies", "allergy"]) ]

/-- `str(key).lower().strip()` as computed in `_standardize_field_names`. -/
def pyKeyLower (k : String) : String := stripStr (lowerStr k)

/-- The match test of `_standardize_field_names`:
`key_lower in possible_names or any(name in key_lower for name in possible_names)`. -/
def matchesNames (keyLower : String) (names : List String) : Bool :=
  names.contains keyLower || names.any (fun n => substrOf n keyLower)

/-- Whether a (lowered, stripped) key matches some canonical field's variants. -/
def isMappedKey (keyLower : String) : Bool :=
  field_mappings.any (fun p => matchesNames keyLower p.2)

/-- `clean_key = key_lower.replace(' ', '_').replace('-', '_')`. -/
def cleanKey (keyLower : String) : String :=
  replaceChar '-' '_' (replaceChar ' ' '_' keyLower)

/-- First loop of `_standardize_field_names`: for each canonical field, the
first raw key whose lowered name matches one of its variants supplies the
value (`break` after the first match). -/
def canonicalPass (record : PatientRecord) : PatientRecord :=
  field_mappings.foldl
    (fun std sf =>
      match record.find? (fun kv => matchesNames (pyKeyLower kv.1) sf.2) with
      | some kv => dictInsert std sf.1 kv.2
      | none => std)
    []

/-- One step of the passthrough loop of `_standardize_field_names`:
`if not mapped and key not in standardized: standardized[clean_key] = value`. -/
def passthroughStep (std : PatientRecord) (kv : String × Value) : PatientRecord :=
  if !(isMappedKey (pyKeyLower kv.1)) && !(dictHasKey std kv.1) then
    dictInsert std (cleanKey (pyKeyLower kv.1)) kv.2
  else std

/-- `DataProcessor._standardize_field_names` from `src/data_processor.py`. -/
def standardize_field_names (record : PatientRecord) : PatientRecord :=
  record.foldl passthroughStep (canonicalPass record)


/-! ## Structured text adapter (`DataProcessor._process_text`) -/

/-- The section currently active while scanning a structured text file.
`general` is the aliased top-level record in the Python source. -/
inductive TxtSection where
  | general | demographics | vitals | symptoms | history | medications | labs
  deriving DecidableEq

/-- The seven section dictionaries of `_process_text`. In the source,
`sections['general']` aliases `record`; here `general` is that record. -/
structure TxtSections where
  general : PatientRecord
  demographics : PatientRecord
  vitals : PatientRecord
  symptoms : PatientRecord
  history : PatientRecord
  medications : PatientRecord
  labs : PatientRecord
  deriving DecidableEq

def emptyTxtSections : TxtSections := ⟨[], [], [], [], [], [], []⟩

def sectGet (st : TxtSections) : TxtSection → PatientRecord
  | .general => st.general
  | .demographics => st.demographics
  | .vitals => st.vitals
  | .symptoms => st.symptoms
  | .history => st.history
  | .medications => st.medications
  | .labs => st.labs

def sectSet (st : TxtSections) (s : TxtSection) (r : PatientRecord) : TxtSections :=
  match s with
  | .general => { st with general := r }
  | .demographics => { st with demographics := r }
  | .vitals => { st with vitals := r }
  | .symptoms => { st with symptoms := r }
  | .history => { st with history := r }
  | .medications => { st with medications := r }
  | .labs => { st with labs := r }

/-- Python name of the section, used for `f"{current_section}_entry_{n}"`. -/
def sectName : TxtSection → String
  | .general => "general"
  | .demographics => "demographics"
  | .vitals => "vitals"
  | .symptoms => "symptoms"
  | .history => "history"
  | .medications => "medications"
  | .labs => "labs"

/-- `any(section in line_lower for section in subs)`. -/
def lineHasAny (lineLower : String) (subs : List String) : Bool :=
  subs.any (fun s => substrOf s lineLower)

/-- One iteration of the line loop of `_process_text`: section-header
detection, `key: value` parsing, and list-style entries for the symptoms
and history sections. -/
def processTextLine (acc : TxtSection × TxtSections) (rawLine : String) :
    TxtSection × TxtSections :=
  let line := stripStr rawLine
  if line = "" then acc
  else
    let ll := lowerStr line
    if lineHasAny ll ["demographic", "patient info"] then (.demographics, acc.2)
    else if lineHasAny ll ["vital", "signs"] then (.vitals, acc.2)
    else if lineHasAny ll ["symptom", "complaint"] then (.symptoms, acc.2)
    else if lineHasAny ll ["history", "medical history"] then (.history, acc.2)
    else if lineHasAny ll ["medication", "drugs"] then (.medications, acc.2)
    else if lineHasAny ll ["lab", "laboratory"] then (.labs, acc.2)
    else
      match splitFirst ':' line.data with
      | some (k0, v0) =>
        let key := replaceChar ' ' '_' (lowerStr (stripStr (String.mk k0)))
        let value := stripStr (String.mk v0)
        if value ≠ "" then
          (acc.1, sectSet acc.2 acc.1 (dictInsert (sectGet acc.2 acc.1) key (Value.str value)))
        else acc
      | none =>
        if acc.1 = .symptoms ∨ acc.1 = .history then
          let cur := sectGet acc.2 acc.1
          let key := sectName acc.1 ++ "_entry_" ++ Nat.repr cur.length
          (acc.1, sectSet acc.2 acc.1 (dictInsert cur key (Value.str line)))
        else acc

/-- The merge loop of `_process_text`: `record.update(section_data)` for each
non-general section, in dict insertion order. -/
def mergeTxtSections (st : TxtSections) : PatientRecord :=
  [st.demographics, st.vitals, st.symptoms, st.history, st.medications, st.labs].foldl
    (fun r sec => sec.foldl (fun r kv => dictInsert r kv.1 kv.2) r)
    st.general

/-- The record assembled by `_process_text` before standardization. -/
def parseTextRecord (content : String) : PatientRecord :=
  mergeTxtSections
    ((splitOnCharStr '\n' content).foldl processTextLine (.general, emptyTxtSections)).2

/-- `DataProcessor._process_text`: parse, standardize, and return the record
inside a singleton list if non-empty (`[standardized_record] if standardized_record else []`). -/
def process_text (content : String) : List PatientRecord :=
  let std := standardize_field_names (parseTextRecord content)
  if std.isEmpty then [] else [std]

/-! ## PDF document adapter (`DataProcessor._process_pdf`, `_parse_medical_text`) -/

/-- `keywords` of `_parse_medical_text`, in source order. -/
def pdfKeywords : List (String × List String) :=
  [ ("patient_name", ["patient name", "name:", "patient:", "pt name"]),
    ("age", ["age:", "age ", "years old", "y/o"]),
    ("gender", ["gender:", "sex:", "male", "female"]),
    ("chief_complaint", ["chief complaint", "cc:", "presenting complaint", "reason for visit"]),
    ("symptoms", ["symptoms:", "complaints:", "reports:", "presents with"]),
    ("vital_signs", ["vital signs", "vitals:", "bp:", "hr:", "temp:", "temperature:"]),
    ("medical_history", ["history:", "pmh:", "past medical history", "medical history"]),
    ("medications", ["medications:", "meds:", "current medications", "prescriptions:"]),
    ("assessment", ["assessment:", "impression:", "diagnosis:", "plan:"]),
    ("physical_exam", ["physical exam", "examination:", "pe:"]) ]

/-- Scanner state of `_parse_medical_text`: active section, accumulated
section lines, and the record built so far. -/
structure PmtState where
  currentSection : Option String
  sectionContent : List String
  record : PatientRecord

/-- Flush `record[current_section] = ' '.join(section_content).strip()`,
guarded exactly as in the source (`if current_section and section_content`). -/
def pmtFlush (st : PmtState) : PatientRecord :=
  match st.currentSection with
  | some sec =>
    if st.sectionContent.isEmpty then st.record
    else dictInsert st.record sec (Value.str (stripStr (joinSpaces st.sectionContent)))
  | none => st.record

/-- `remaining_content = line[content_start:].strip().lstrip(':').strip()`. -/
def pmtRemaining (line : String) (contentStart : Nat) : String :=
  stripStr (String.mk ((trimChars (line.data.drop contentStart)).dropWhile (fun c => c == ':')))

/-- One iteration of the line loop of `_parse_medical_text`. -/
def pmtStep (st : PmtState) (rawLine : String) : PmtState :=
  let line := stripStr rawLine
  if line = "" then st
  else
    let ll := lowerStr line
    match pdfKeywords.find? (fun p => p.2.any (fun kw => substrOf kw ll)) with
    | some sec =>
      let record := pmtFlush st
      match sec.2.find? (fun kw => substrOf kw ll) with
      | some kw =>
        let contentStart := findSubIdx kw.data ll.data + kw.data.length
        let remaining := pmtRemaining line contentStart
        { currentSection := some sec.1,
          sectionContent := if remaining ≠ "" then [remaining] else [],
          record := record }
      | none =>
        { currentSection := some sec.1, sectionContent := [], record := record }
    | none =>
      if st.currentSection.isSome then
        { st with sectionContent := st.sectionContent ++ [line] }
      else st

/-- `DataProcessor._parse_medical_text`. -/
def parse_medical_text (text : String) : PatientRecord :=
  pmtFlush ((splitOnCharStr '\n' text).foldl pmtStep ⟨none, [], []⟩)

/-- The page-concatenation loop of `_process_pdf`: non-empty page texts are
joined with a trailing newline each (the PDF text extractor is an external
collaborator; each page's `extract_text()` result is given as an
`Option String`, `none` for pages yielding no text object). -/
def extractPdfText (pages : List (Option String)) : String :=
  pages.foldl
    (fun acc p =>
      match p with
      | some t => if t ≠ "" then acc ++ t ++ "\n" else acc
      | none => acc)
    ""

/-- `DataProcessor._process_pdf`: raises on empty extracted text, otherwise
parses, standardizes and drops an empty standardized record. The two layers
of `except` blocks in the source prefix the error text. -/
def process_pdf (pages : List (Option String)) : Except String (List PatientRecord) :=
  let text := extractPdfText pages
  if stripStr text = "" then
    .error "Error processing PDF file: No text content found in PDF"
  else
    let std := standardize_field_names (parse_medical_text text)
    .ok (if std.isEmpty then [] else [std])

/-! ## JSON and CSV adapters (`_process_json`, `_process_csv`) -/

/-- One element of a decoded JSON record list: a dict or anything else (the
source keeps only `isinstance(record, dict)` elements). -/
inductive JsonItem where
  | dict (r : PatientRecord)
  | nondict
  deriving DecidableEq

/-- A decoded top-level JSON payload, as discriminated by `_process_json`:
a list, a dict with a `patients` key, a dict with a `data` key, any other
dict (treated as one record), or a non-list non-dict value. -/
inductive JsonTop where
  | list (items : List JsonItem)
  | objPatients (items : List JsonItem)
  | objData (items : List JsonItem)
  | objSingle (r : PatientRecord)
  | invalid
  deriving DecidableEq

/-- The structure dispatch of `_process_json`; `invalid` raises
`ValueError("Invalid JSON structure")`. -/
def jsonRecordsOf : JsonTop → Except String (List JsonItem)
  | .list items => .ok items
  | .objPatients items => .ok items
  | .objData items => .ok items
  | .objSingle r => .ok [.dict r]
  | .invalid => .error "Invalid JSON structure"

/-- One iteration of the standardization loop of `_process_json`: a dict
element is standardized and appended (with no empty-record check), anything
else is skipped. -/
def jsonFoldStep (acc : List PatientRecord) (it : JsonItem) : List PatientRecord :=
  match it with
  | .dict r => acc ++ [standardize_field_names r]
  | .nondict => acc

/-- The standardization loop of `_process_json`. -/
def processJsonItems (items : List JsonItem) : List PatientRecord :=
  items.foldl jsonFoldStep []

/-- `DataProcessor._process_json` over an already-decoded payload (the JSON
decoder is an external collaborator). -/
def process_json (top : JsonTop) : Except String (List PatientRecord) :=
  match jsonRecordsOf top with
  | .ok items => .ok (processJsonItems items)
  | .error e => .error ("Error processing JSON file: " ++ e)

/-- The pandas column cleanup of `_process_csv`:
`df.columns.str.strip().str.lower().str.replace(' ', '_')`. -/
def cleanColumns (r : PatientRecord) : PatientRecord :=
  r.map (fun kv => (replaceChar ' ' '_' (lowerStr (stripStr kv.1)), kv.2))

/-- `DataProcessor._process_csv` over an already-parsed table (pandas is an
external collaborator; each row is one raw record): clean column names and
standardize every row, with no empty-record check. -/
def processCsvRows (rows : List PatientRecord) : List PatientRecord :=
  rows.map (fun r => standardize_field_names (cleanColumns r))

/-! ## Ingestion (`DataProcessor.process_file` and the loop in `app.py`) -/

/-- An uploaded artifact: the declared type (the file extension in the
source) selects the constructor, and the payload is the external parser's
view of the bytes. `other` is an artifact whose extension is not in
`supported_formats`. -/
inductive Artifact where
  | csv (nm : String) (rows : List PatientRecord)
  | json (nm : String) (top : JsonTop)
  | txt (nm : String) (content : String)
  | pdf (nm : String) (pages : List (Option String))
  | other (nm : String) (ext : String)
  deriving DecidableEq

def artifactName : Artifact → String
  | .csv nm _ => nm
  | .json nm _ => nm
  | .txt nm _ => nm
  | .pdf nm _ => nm
  | .other nm _ => nm

/-- `DataProcessor.process_file`: dispatch on the declared type; any error is
re-raised as `Failed to process {name}: {cause}`. -/
def process_file (a : Artifact) : Except String (List PatientRecord) :=
  match a with
  | .csv _ rows => .ok (processCsvRows rows)
  | .json nm top =>
    match process_json top with
    | .ok recs => .ok recs
    | .error e => .error ("Failed to process " ++ nm ++ ": " ++ e)
  | .txt _ content => .ok (process_text content)
  | .pdf nm pages =>
    match process_pdf pages with
    | .ok recs => .ok recs
    | .error e => .error ("Failed to process " ++ nm ++ ": " ++ e)
  | .other nm ext =>
    .error ("Failed to process " ++ nm ++ ": Unsupported file format: " ++ ext)

/-- One iteration of the per-file loop of `show_new_analysis` in
`src/app.py`: the artifact is processed inside its own try/except; a success
extends the batch, a failure is recorded (via `st.error`) as (name, reason)
and the loop continues. -/
def ingestStep (acc : List PatientRecord × List (String × String)) (f : Artifact) :
    List PatientRecord × List (String × String) :=
  match process_file f with
  | .ok recs => (acc.1 ++ recs, acc.2)
  | .error e => (acc.1, acc.2 ++ [(artifactName f, e)])

/-- The per-file loop of `show_new_analysis`: successes concatenated in
input order alongside the per-artifact failure reports. -/
def ingest (files : List Artifact) : List PatientRecord × List (String × String) :=
  files.foldl ingestStep ([], [])


/-! ## Diagnostic engine (`DiagnosticEngine.analyze_patient_data` in
`src/diagnostic_engine.py`)

The reasoning model and the JSON decoder are external collaborators: the
model call is given as a `ModelReply` (either the text of the response or
the message of the exception the call raised), and `json.loads` as a
`parseJson` function argument producing the demanded structure or an error.
A parsed response is a dict; each of the four contract keys may be absent
(`none`). -/

/-- One diagnosis dict as the main engine sees it: only `confidence_score`
is ever read (`d.get('confidence_score', 0)`); the rest of the dict rides
along opaquely in `payload`. -/
structure DxRaw where
  condition : String
  confidence_score : Option ℚ
  deriving DecidableEq

/-- The `validation` object of the response contract. -/
structure ValidationInfo where
  overall_confidence : ℚ
  evidence_strength : String
  recommendation_level : String
  limitations : String
  deriving DecidableEq

/-- A parsed model response / returned diagnostic result, with `none`
modelling an absent key. -/
structure EngineResult where
  red_flags : Option (List String)
  diagnoses : Option (List DxRaw)
  validation : Option ValidationInfo
  reasoning : Option String
  deriving DecidableEq

/-- Outcome of `self.model.generate_content(...)` followed by
`response.text`: the call raised with a message, or produced text. -/
inductive ModelReply where
  | fail (msg : String)
  | text (s : String)
  deriving DecidableEq

/-- The two `except` clauses of `analyze_patient_data`:
`json.JSONDecodeError` and the catch-all `Exception`. -/
inductive EngineFailure where
  | parseErr
  | otherErr (msg : String)
  deriving DecidableEq

/-- The error message each handler passes to `_get_error_response`. -/
def failureMessage : EngineFailure → String
  | .parseErr => "Failed to parse AI diagnostic response"
  | .otherErr m => "Diagnostic analysis failed: " ++ m

/-- `DiagnosticEngine._get_error_response`. -/
def get_error_response (msg : String) : EngineResult :=
  { red_flags := some [],
    diagnoses := some [],
    validation := some
      { overall_confidence := 0,
        evidence_strength := "Insufficient",
        recommendation_level := "N/A",
        limitations := "Analysis failed: " ++ msg },
    reasoning := some ("Unable to complete diagnostic analysis due to: " ++ msg ++
      ". Please consult with a healthcare professional for proper medical evaluation.") }

/-- The confidence filter predicate
`d.get('confidence_score', 0) >= confidence_threshold`. -/
def confAtLeast (thr : ℚ) (d : DxRaw) : Bool :=
  decide (thr ≤ d.confidence_score.getD 0)

/-- The `try` block of `analyze_patient_data`: empty response text and model
call failure raise; a parse failure is a `JSONDecodeError`; otherwise the
diagnoses are filtered by threshold and truncated (only when the `diagnoses`
key is present and non-empty, per `if diagnostic_results.get('diagnoses')`),
and `red_flags` is cleared when red-flag detection is disabled. -/
def analyzeBody (parseJson : String → Except String EngineResult)
    (reply : ModelReply) (confidence_threshold : ℚ) (max_diagnoses : Nat)
    (enable_red_flags : Bool) : Except EngineFailure EngineResult :=
  match reply with
  | .fail m => .error (.otherErr m)
  | .text s =>
    if s = "" then .error (.otherErr "Empty response from AI model")
    else
      match parseJson s with
      | .error _ => .error .parseErr
      | .ok resp =>
        let ds :=
          match resp.diagnoses with
          | some l =>
            if l.isEmpty then some l
            else some ((l.filter (confAtLeast confidence_threshold)).take max_diagnoses)
          | none => none
        let rf := if enable_red_flags then resp.red_flags else some []
        .ok { resp with diagnoses := ds, red_flags := rf }

/-- `DiagnosticEngine.analyze_patient_data`: the `try` body with both
`except` handlers converting every failure into the standardized error
response. -/
def analyze_patient_data (parseJson : String → Except String EngineResult)
    (reply : ModelReply) (confidence_threshold : ℚ) (max_diagnoses : Nat)
    (enable_red_flags : Bool) : EngineResult :=
  match analyzeBody parseJson reply confidence_threshold max_diagnoses enable_red_flags with
  | .ok r => r
  | .error f => get_error_response (failureMessage f)

/-! ## Repair step (`DiagnosticEngine._post_process_results` in
`src/attached_assets/diagnostic_engine_1758097345916.py`) -/

/-- One diagnosis dict as the attached-asset engine repairs it; `none`
models a key the model response omitted. `icd_10_code` is carried but never
repaired by the source. -/
structure DxAsset where
  condition : String
  confidence_score : Option ℚ
  risk_level : Option String
  specialty : Option String
  clinical_reasoning : Option String
  supporting_evidence : Option (List String)
  next_steps : Option String
  icd_10_code : Option String
  deriving DecidableEq

/-- A diagnosis after the repair loop: every defaulted key is present. -/
structure DxRepaired where
  condition : String
  confidence_score : ℚ
  risk_level : String
  specialty : String
  clinical_reasoning : String
  supporting_evidence : List String
  next_steps : String
  icd_10_code : Option String
  deriving DecidableEq

/-- The body of the repair loop of `_post_process_results`: `setdefault` for
the six fields, clamp `confidence_score` to [0,1], coerce an invalid
`risk_level` to Medium. -/
def repairDx (d : DxAsset) : DxRepaired :=
  let conf := d.confidence_score.getD 0
  let risk := d.risk_level.getD "Medium"
  { condition := d.condition,
    confidence_score := max 0 (min 1 conf),
    risk_level := if risk ∈ (["High", "Medium", "Low"] : List String) then risk else "Medium",
    specialty := d.specialty.getD "General Medicine",
    clinical_reasoning := d.clinical_reasoning.getD "Analysis pending",
    supporting_evidence := d.supporting_evidence.getD [],
    next_steps := d.next_steps.getD "Consult healthcare provider",
    icd_10_code := d.icd_10_code }

/-- Stable insertion into a confidence-descending list, keyed by
`x.get('confidence_score', 0)`; `insertConfDesc` + `foldr` is the unique
stable descending sort, matching Python `sorted(..., reverse=True)`. -/
def insertConfDesc (x : DxAsset) : List DxAsset → List DxAsset
  | [] => [x]
  | y :: t =>
    if x.confidence_score.getD 0 ≥ y.confidence_score.getD 0 then x :: y :: t
    else y :: insertConfDesc x t

def sortConfDesc (l : List DxAsset) : List DxAsset := l.foldr insertConfDesc []

/-- A parsed response as the attached-asset engine sees it. -/
structure AssetResults where
  diagnoses : Option (List DxAsset)
  red_flags : Option (List String)
  validation : Option ValidationInfo
  reasoning : Option String
  deriving DecidableEq

/-- The result of `_post_process_results`: defaults filled in for the
`diagnoses` and `red_flags` keys, diagnoses sorted and repaired. -/
structure AssetResultsOut where
  diagnoses : List DxRepaired
  red_flags : List String
  validation : Option ValidationInfo
  reasoning : Option String
  deriving DecidableEq

/-- `DiagnosticEngine._post_process_results` from the attached asset:
default `diagnoses`/`red_flags` to `[]`, sort non-empty diagnoses by
confidence descending (stable), then run the repair loop over each. -/
def post_process_results (r : AssetResults) : AssetResultsOut :=
  let ds := r.diagnoses.getD []
  let rf := r.red_flags.getD []
  let sorted := if ds.isEmpty then ds else sortConfDesc ds
  { diagnoses := sorted.map repairDx,
    red_flags := rf,
    validation := r.validation,
    reasoning := r.reasoning }

/-! ## Data Quality Assessor (`assess_data_quality`, `calculate_completeness`,
`_calculate_consistency` in `src/attached_assets/data_processor_1758097345922.py`) -/

/-- Python truthiness of a data cell as tested by the completeness metric:
`v is not None and str(v).strip() != ''`. -/
def valueFilled (v : Value) : Bool :=
  match v with
  | .str s => stripStr s ≠ ""
  | .num _ => true
  | .vnone => false

/-- `DataProcessor.calculate_completeness`. -/
def calculate_completeness (data : List PatientRecord) : ℚ :=
  if data.isEmpty then 0
  else
    let total : Nat := (data.map (fun r => r.length)).sum
    let filled : Nat := (data.map (fun r => (r.filter (fun kv => valueFilled kv.2)).length)).sum
    if 0 < total then (filled : ℚ) / (total : ℚ) * 100 else 0

/-- `set(record.keys())` for one record (raw keys, as `_calculate_consistency`
uses them). -/
def fieldSetRaw (r : PatientRecord) : Finset String := (r.map (fun p => p.1)).toFinset

/-- `set(str(k).lower() for k in record.keys())` as `assess_data_quality`
uses for critical-field matching and the unique-field count. -/
def fieldSetLower (r : PatientRecord) : Finset String :=
  (r.map (fun p => lowerStr p.1)).toFinset

/-- `DataProcessor._calculate_consistency`: 100 for at most one record,
otherwise the share of fields common to every record within the union of
all fields (0 when the union is empty). -/
def calculate_consistency (data : List PatientRecord) : ℚ :=
  if data.length ≤ 1 then 100
  else
    match data with
    | [] => 100
    | r :: rest =>
      let common := rest.foldl (fun a s => a ∩ fieldSetRaw s) (fieldSetRaw r)
      let uni := rest.foldl (fun a s => a ∪ fieldSetRaw s) (fieldSetRaw r)
      if uni = ∅ then 0 else (common.card : ℚ) / (uni.card : ℚ) * 100

/-- The fixed `critical_fields` list of `assess_data_quality`. -/
def criticalFieldNames : List String :=
  ["age", "gender", "symptoms", "chief_complaint", "medical_history", "vital_signs",
   "clinical_notes"]

/-- The inner loop of `assess_data_quality`: by the `break`, a record adds at
most one to `critical_present`, namely when some critical field name is a
substring of some of its lowered keys. -/
def recordHasCritical (r : PatientRecord) : Bool :=
  criticalFieldNames.any
    (fun cf => (r.map (fun p => lowerStr p.1)).any (fun f => substrOf cf f))

/-- `critical_present` over the whole batch. -/
def criticalPresent (data : List PatientRecord) : Nat :=
  (data.filter recordHasCritical).length

/-- The integer rounding underlying Python `round`: half to even. -/
def pyRoundHalfEven (t : ℚ) : ℤ :=
  if t - (t.floor : ℚ) < 1 / 2 then t.floor
  else if 1 / 2 < t - (t.floor : ℚ) then t.floor + 1
  else if t.floor % 2 = 0 then t.floor else t.floor + 1

/-- Python `round(x, 1)` composed: scale by ten, round half to even, scale
back. -/
def pyRound1 (q : ℚ) : ℚ := (pyRoundHalfEven (q * 10) : ℚ) / 10

/-- The dict returned by `assess_data_quality`. The three keys absent from
the empty-batch early return are `Option`-valued. -/
structure QualityAssessment where
  completeness : ℚ
  consistency : ℚ
  critical_fields_present : Nat
  total_critical_fields : Option Nat
  data_quality_score : ℚ
  recommendations : List String
  total_records : Option Nat
  unique_fields : Option Nat
  deriving DecidableEq

/-- `DataProcessor.assess_data_quality`. -/
def assess_data_quality (data : List PatientRecord) : QualityAssessment :=
  if data.isEmpty then
    { completeness := 0,
      consistency := 0,
      critical_fields_present := 0,
      total_critical_fields := none,
      data_quality_score := 0,
      recommendations := ["No data available for analysis"],
      total_records := none,
      unique_fields := none }
  else
    let critical_present := criticalPresent data
    let all_fields := data.foldl (fun a r => a ∪ fieldSetLower r) ∅
    let completeness := calculate_completeness data
    let consistency := calculate_consistency data
    let critical_field_percentage :=
      ((critical_present : ℚ) / (criticalFieldNames.length : ℚ)) * 100
    let quality_score :=
      completeness * (2 / 5) + consistency * (3 / 10) + critical_field_percentage * (3 / 10)
    let recommendations :=
      (if completeness < 70 then ["Consider collecting additional patient information"] else []) ++
      (if (critical_present : ℚ) < (criticalFieldNames.length : ℚ) * (1 / 2) then
        ["Key medical fields are missing - this may affect diagnostic accuracy"] else []) ++
      (if consistency < 60 then
        ["Data format inconsistencies detected - standardization recommended"] else []) ++
      (if 80 < quality_score then ["Data quality is excellent for AI analysis"] else [])
    { completeness := pyRound1 completeness,
      consistency := pyRound1 consistency,
      critical_fields_present := critical_present,
      total_critical_fields := some criticalFieldNames.length,
      data_quality_score := pyRound1 quality_score,
      recommendations := recommendations,
      total_records := some data.length,
      unique_fields := some all_fields.card }


/-! ## Concrete inputs used by counterexamples and witnesses -/

/-- Adjacent-pairwise check that a diagnoses list is ordered by
`confidence_score` (with `get('confidence_score', 0)`) descending. -/
def confDescList : List DxRaw → Bool
  | [] => true
  | [_] => true
  | a :: b :: t =>
    decide (b.confidence_score.getD 0 ≤ a.confidence_score.getD 0) && confDescList (b :: t)

/-- A diagnosis with confidence 0.4, listed first by the model. -/
def c2dxA : DxRaw := { condition := "Condition A", confidence_score := some (2 / 5) }

/-- A diagnosis with confidence 0.9, listed second by the model. -/
def c2dxB : DxRaw := { condition := "Condition B", confidence_score := some (9 / 10) }

/-- A parsed model response whose diagnoses are not confidence-descending. -/
def c2resp : EngineResult :=
  { red_flags := some [],
    diagnoses := some [c2dxA, c2dxB],
    validation := none,
    reasoning := some "unsorted response" }

/-- A JSON decoder that parses any text to `c2resp`. -/
def c2parse : String → Except String EngineResult := fun _ => .ok c2resp

/-- A JSON decoder that always fails, as `json.loads` does on a malformed
model response. -/
def c4parse : String → Except String EngineResult := fun _ => .error "Expecting value"

/-- A diagnosis the model returned with confidence above 1 and every
repairable field missing. -/
def c5dx : DxAsset :=
  { condition := "Overconfident", confidence_score := some (3 / 2), risk_level := none,
    specialty := none, clinical_reasoning := none, supporting_evidence := none,
    next_steps := none, icd_10_code := none }

/-- A model response containing only `c5dx`. -/
def c5res : AssetResults :=
  { diagnoses := some [c5dx], red_flags := none, validation := none, reasoning := none }

/-! ## Supporting lemmas -/

/-- Inserting never removes a key: the keys of `dictInsert d k v` are the
keys of `d`, with `k` appended when it was absent. -/
theorem dictKeys_overwrite (k : String) (v : Value) (d : PatientRecord) :
    dictKeys (d.map (fun p => if p.1 == k then (k, v) else p)) = dictKeys d := by
  induction d with
  | nil => rfl
  | cons p t ih =>
    simp only [dictKeys, List.map_cons] at ih ⊢
    rw [ih]
    by_cases h : p.1 == k
    · rw [if_pos h]
      have hk : p.1 = k := by simpa using h
      rw [hk]
    · rw [if_neg h]

theorem dictKeys_dictInsert (d : PatientRecord) (k : String) (v : Value) :
    dictKeys (dictInsert d k v) = if dictHasKey d k then dictKeys d else dictKeys d ++ [k] := by
  unfold dictInsert
  split
  · exact dictKeys_overwrite k v d
  · simp [dictKeys]

theorem mem_dictKeys_dictInsert_self (d : PatientRecord) (k : String) (v : Value) :
    k ∈ dictKeys (dictInsert d k v) := by
  rw [dictKeys_dictInsert]
  split
  · next h =>
    unfold dictHasKey at h
    obtain ⟨p, hp, hk⟩ := List.any_eq_true.mp h
    have : p.1 = k := by simpa using hk
    exact this ▸ List.mem_map.mpr ⟨p, hp, rfl⟩
  · exact List.mem_append.mpr (Or.inr (List.mem_singleton.mpr rfl))

theorem mem_dictKeys_dictInsert_of_mem (d : PatientRecord) (k k0 : String) (v : Value)
    (h : k0 ∈ dictKeys d) : k0 ∈ dictKeys (dictInsert d k v) := by
  rw [dictKeys_dictInsert]
  split
  · exact h
  · exact List.mem_append.mpr (Or.inl h)

/-- Keys present before the passthrough loop stay present. -/
theorem mem_dictKeys_foldl_passthroughStep (l : List (String × Value))
    (std : PatientRecord) (k0 : String) (h : k0 ∈ dictKeys std) :
    k0 ∈ dictKeys (l.foldl passthroughStep std) := by
  induction l generalizing std with
  | nil => exact h
  | cons kv t ih =>
    refine ih (passthroughStep std kv) ?_
    unfold passthroughStep
    split
    · exact mem_dictKeys_dictInsert_of_mem _ _ _ _ h
    · exact h

/-- `dictHasKey` means the key is among `dictKeys`. -/
theorem mem_dictKeys_of_dictHasKey (d : PatientRecord) (k : String)
    (h : dictHasKey d k = true) : k ∈ dictKeys d := by
  unfold dictHasKey at h
  obtain ⟨p, hp, hk⟩ := List.any_eq_true.mp h
  have : p.1 = k := by simpa using hk
  exact this ▸ List.mem_map.mpr ⟨p, hp, rfl⟩

/-! ## Claim C1 -/

/-- C1 counterexample. The claim says every raw key appears in the
normalized output exactly once, no raw key contributes to more than one
canonical field, and no value is silently discarded. On the record
`{id: "A", mrn: "B"}` both keys match the `patient_id` variants; only the
first-matching key `id` supplies the canonical value and the key `mrn`,
being mapped, is not passed through either, so the value `"B"` is silently
discarded and the raw key `mrn` appears zero times. On `{bpm: "77"}` the one
raw key matches both the `blood_pressure` variants (`bp` is a substring of
`bpm`) and the `heart_rate` variants (`bpm` exactly), so it contributes to
two canonical fields. -/
theorem c1_counterexample :
    standardize_field_names [("id", Value.str "A"), ("mrn", Value.str "B")]
        = [("patient_id", Value.str "A")]
      ∧ (standardize_field_names [("id", Value.str "A"), ("mrn", Value.str "B")]).all
          (fun p => !(p.2 == Value.str "B"))
      ∧ standardize_field_names [("bpm", Value.str "77")]
        = [("blood_pressure", Value.str "77"), ("heart_rate", Value.str "77")] := by
  decide

/-- C1 amended: a raw key whose lowered, stripped name matches no canonical
variant is never lost as a key — after normalization the output contains its
cleaned passthrough name (or, when another raw key already produced that very
key, that existing key). Raw keys that match a canonical variant are only
kept through the per-canonical-field first-match rule: they may be dropped
entirely or may feed several canonical fields (see the counterexample). -/
theorem c1_unmapped_key_retained (record : PatientRecord) (k : String) (v : Value)
    (hmem : (k, v) ∈ record) (hunmapped : isMappedKey (pyKeyLower k) = false) :
    cleanKey (pyKeyLower k) ∈ dictKeys (standardize_field_names record)
      ∨ k ∈ dictKeys (standardize_field_names record) := by
  unfold standardize_field_names
  generalize canonicalPass record = std0
  have main : ∀ (l : List (String × Value)) (std : PatientRecord),
      (k, v) ∈ l →
      cleanKey (pyKeyLower k) ∈ dictKeys (l.foldl passthroughStep std)
        ∨ k ∈ dictKeys (l.foldl passthroughStep std) := by
    intro l
    induction l with
    | nil => intro std h; cases h
    | cons kv t ih =>
      intro std h
      cases h with
      | head =>
        by_cases hhas : dictHasKey std k
        · right
          refine mem_dictKeys_foldl_passthroughStep t (passthroughStep std (k, v)) k ?_
          have hk : k ∈ dictKeys std := mem_dictKeys_of_dictHasKey std k hhas
          unfold passthroughStep
          split
          · exact mem_dictKeys_dictInsert_of_mem _ _ _ _ hk
          · exact hk
        · left
          refine mem_dictKeys_foldl_passthroughStep t (passthroughStep std (k, v))
            (cleanKey (pyKeyLower k)) ?_
          unfold passthroughStep
          have hcond : (!(isMappedKey (pyKeyLower k)) && !(dictHasKey std k)) = true := by
            simp [hunmapped, hhas]
          simp only [hcond, if_true]
          exact mem_dictKeys_dictInsert_self _ _ _
      | tail _ htail => exact ih (passthroughStep std kv) htail
  exact main record std0 hmem

/-- C1 witness: the raw key `risk level` matches no canonical variant and
survives as the cleaned passthrough key `risk_level`. -/
theorem c1_witness :
    ("risk level", Value.str "low") ∈ ([("risk level", Value.str "low")] : PatientRecord)
      ∧ isMappedKey (pyKeyLower "risk level") = false
      ∧ (cleanKey (pyKeyLower "risk level")
            ∈ dictKeys (standardize_field_names [("risk level", Value.str "low")])
          ∨ "risk level" ∈ dictKeys (standardize_field_names [("risk level", Value.str "low")])) := by
  refine ⟨by decide, by decide, ?_⟩
  exact c1_unmapped_key_retained [("risk level", Value.str "low")] "risk level"
    (Value.str "low") (by decide) (by decide)

/-! ## Claim C2 -/

/-- C2 counterexample. The claim says `analyze` re-sorts the filtered
diagnoses in confidence-descending order before truncation, so the returned
list is sorted even when the model response is unsorted. With a parsed
response listing confidences [0.4, 0.9], a threshold of 0.3 and room for 8
diagnoses, the engine returns the list in the original order [0.4, 0.9],
which is not confidence-descending: `analyze_patient_data` never sorts. -/
theorem c2_counterexample :
    (analyze_patient_data c2parse (ModelReply.text "resp") (3 / 10) 8 true).diagnoses
        = some [c2dxA, c2dxB]
      ∧ confDescList [c2dxA, c2dxB] = false := by
  constructor
  · decide
  · decide

/-- C2 amended: the diagnoses returned on the success path are exactly the
diagnoses with `confidence_score` at or above the threshold, truncated to
`max_diagnoses`, in the model response's original order (the result is a
subsequence of the response's diagnoses list); there is no re-sort, so the
result is confidence-descending only when the response already was. -/
theorem c2_filter_truncate_keeps_response_order
    (parse : String → Except String EngineResult) (s : String) (resp : EngineResult)
    (ds : List DxRaw) (thr : ℚ) (maxd : Nat) (rf : Bool)
    (hs : s ≠ "") (hp : parse s = .ok resp) (hd : resp.diagnoses = some ds)
    (hne : ds ≠ []) :
    (analyze_patient_data parse (ModelReply.text s) thr maxd rf).diagnoses
        = some ((ds.filter (confAtLeast thr)).take maxd)
      ∧ ((ds.filter (confAtLeast thr)).take maxd).Sublist ds
      ∧ ∀ d ∈ (ds.filter (confAtLeast thr)).take maxd, thr ≤ d.confidence_score.getD 0 := by
  refine ⟨?_, ?_, ?_⟩
  · have hempty : ds.isEmpty = false := by
      cases ds with
      | nil => exact absurd rfl hne
      | cons a t => rfl
    unfold analyze_patient_data analyzeBody
    simp [hs, hp, hd, hempty]
  · exact (List.take_sublist _ _).trans (List.filter_sublist _)
  · intro d hdmem
    have h1 : d ∈ ds.filter (confAtLeast thr) := List.mem_of_mem_take hdmem
    have h2 : confAtLeast thr d = true := List.of_mem_filter h1
    unfold confAtLeast at h2
    exact of_decide_eq_true h2

/-- C2 witness: the amended statement evaluated on the unsorted concrete
response behind the counterexample. -/
theorem c2_witness :
    (analyze_patient_data c2parse (ModelReply.text "w") (3 / 10) 8 true).diagnoses
        = some (([c2dxA, c2dxB].filter (confAtLeast (3 / 10))).take 8)
      ∧ (([c2dxA, c2dxB].filter (confAtLeast (3 / 10))).take 8).Sublist [c2dxA, c2dxB] := by
  have h := c2_filter_truncate_keeps_response_order c2parse "w" c2resp [c2dxA, c2dxB]
    (3 / 10) 8 true (by decide) rfl rfl (by decide)
  exact ⟨h.1, h.2.1⟩

/-! ## Claim C3 -/

/-- C3 counterexample. The claim says that when the reasoning-model call
fails, `analyze` raises an EngineError to its caller rather than returning
any diagnostic result, and that this is the only failing condition. In the
source every exception — the model call included — is caught by the broad
`except Exception` handler, which returns the standardized error dict: on a
transport failure `analyze_patient_data` returns a diagnostic-result value
(with empty diagnoses) instead of raising. -/
theorem c3_counterexample :
    analyze_patient_data c2parse (ModelReply.fail "network unreachable") (3 / 10) 8 true
        = get_error_response "Diagnostic analysis failed: network unreachable"
      ∧ (analyze_patient_data c2parse (ModelReply.fail "network unreachable")
          (3 / 10) 8 true).diagnoses = some [] := by
  constructor
  · rfl
  · rfl

/-- C3 amended: when the reasoning-model call raises, or when it returns an
empty response, `analyze_patient_data` catches the failure and returns the
standardized degraded error response; it never raises to its caller. -/
theorem c3_model_failure_returns_degraded
    (parse : String → Except String EngineResult) (thr : ℚ) (maxd : Nat) (rf : Bool)
    (msg : String) :
    analyze_patient_data parse (ModelReply.fail msg) thr maxd rf
        = get_error_response ("Diagnostic analysis failed: " ++ msg)
      ∧ analyze_patient_data parse (ModelReply.text "") thr maxd rf
        = get_error_response "Diagnostic analysis failed: Empty response from AI model" := by
  constructor
  · rfl
  · rfl

/-! ## Claim C4 -/

/-- C4: when the response text is non-empty but cannot be parsed as the
demanded structure, `analyze_patient_data` returns (does not raise) the
standardized degraded result: empty diagnoses and red flags, evidence
strength Insufficient, and a reasoning string that names the failure and
recommends consulting a healthcare professional. -/
theorem c4_parse_failure_degraded
    (parse : String → Except String EngineResult) (s : String) (thr : ℚ) (maxd : Nat)
    (rf : Bool) (emsg : String) (hs : s ≠ "") (hp : parse s = .error emsg) :
    analyze_patient_data parse (ModelReply.text s) thr maxd rf
        = get_error_response "Failed to parse AI diagnostic response"
      ∧ (analyze_patient_data parse (ModelReply.text s) thr maxd rf).diagnoses = some []
      ∧ (analyze_patient_data parse (ModelReply.text s) thr maxd rf).red_flags = some []
      ∧ (∃ vi, (analyze_patient_data parse (ModelReply.text s) thr maxd rf).validation
            = some vi ∧ vi.evidence_strength = "Insufficient")
      ∧ (∃ reas, (analyze_patient_data parse (ModelReply.text s) thr maxd rf).reasoning
            = some reas
          ∧ substrOf "Failed to parse AI diagnostic response" reas = true
          ∧ substrOf "consult with a healthcare professional" reas = true) := by
  have h1 : analyze_patient_data parse (ModelReply.text s) thr maxd rf
      = get_error_response "Failed to parse AI diagnostic response" := by
    unfold analyze_patient_data analyzeBody
    simp only [hs]
    simp [hp]
    rfl
  refine ⟨h1, ?_, ?_, ?_, ?_⟩
  · rw [h1]; rfl
  · rw [h1]; rfl
  · rw [h1]
    exact ⟨_, rfl, rfl⟩
  · rw [h1]
    exact ⟨_, rfl, by decide, by decide⟩

/-- C4 witness: a decoder that always fails, on concrete inputs. -/
theorem c4_witness :
    analyze_patient_data c4parse (ModelReply.text "not json") (3 / 10) 8 true
        = get_error_response "Failed to parse AI diagnostic response"
      ∧ (analyze_patient_data c4parse (ModelReply.text "not json") (3 / 10) 8 true).diagnoses
        = some [] := by
  have h := c4_parse_failure_degraded c4parse "not json" (3 / 10) 8 true "Expecting value"
    (by decide) rfl
  exact ⟨h.1, h.2.1⟩

/-! ## Claim C10 -/

/-- C10: `analyze_patient_data` is total over every model outcome and parse
outcome — each run either returns the success-path value or the standardized
error dict built by `_get_error_response`, never an exception; and the error
dict always carries exactly the four contract keys with empty `red_flags`
and `diagnoses`, `overall_confidence` 0, and `evidence_strength`
Insufficient. -/
theorem c10_engine_total_with_error_shape
    (parse : String → Except String EngineResult) (reply : ModelReply) (thr : ℚ)
    (maxd : Nat) (rf : Bool) :
    ((∃ r, analyzeBody parse reply thr maxd rf = .ok r
        ∧ analyze_patient_data parse reply thr maxd rf = r)
      ∨ (∃ f, analyzeBody parse reply thr maxd rf = .error f
        ∧ analyze_patient_data parse reply thr maxd rf
          = get_error_response (failureMessage f)))
    ∧ ∀ msg, (get_error_response msg).red_flags = some []
        ∧ (get_error_response msg).diagnoses = some []
        ∧ (get_error_response msg).validation = some
            { overall_confidence := 0, evidence_strength := "Insufficient",
              recommendation_level := "N/A",
              limitations := "Analysis failed: " ++ msg }
        ∧ (get_error_response msg).reasoning = some
            ("Unable to complete diagnostic analysis due to: " ++ msg ++
              ". Please consult with a healthcare professional for proper medical evaluation.") := by
  constructor
  · cases h : analyzeBody parse reply thr maxd rf with
    | ok r =>
      refine Or.inl ⟨r, rfl, ?_⟩
      unfold analyze_patient_data
      rw [h]
    | error f =>
      refine Or.inr ⟨f, rfl, ?_⟩
      unfold analyze_patient_data
      rw [h]
  · intro msg
    exact ⟨rfl, rfl, rfl, rfl⟩

/-! ## Claim C5 -/

/-- C5: after `_post_process_results`, every diagnosis has its
confidence_score clamped into [0,1] and its risk_level in
{High, Medium, Low}; and the repair of a single diagnosis gives each
missing field its stated default — in particular a missing or invalid
risk_level becomes Medium and a missing specialty becomes General
Medicine. -/
theorem c5_repair_defaults_and_bounds :
    (∀ r : AssetResults, ∀ d ∈ (post_process_results r).diagnoses,
        0 ≤ d.confidence_score ∧ d.confidence_score ≤ 1
          ∧ (d.risk_level = "High" ∨ d.risk_level = "Medium" ∨ d.risk_level = "Low"))
    ∧ ∀ d0 : DxAsset,
        (d0.confidence_score = none → (repairDx d0).confidence_score = 0)
        ∧ (d0.risk_level = none → (repairDx d0).risk_level = "Medium")
        ∧ (∀ rl, d0.risk_level = some rl → rl ∉ (["High", "Medium", "Low"] : List String) →
            (repairDx d0).risk_level = "Medium")
        ∧ (d0.specialty = none → (repairDx d0).specialty = "General Medicine")
        ∧ (d0.clinical_reasoning = none → (repairDx d0).clinical_reasoning = "Analysis pending")
        ∧ (d0.supporting_evidence = none → (repairDx d0).supporting_evidence = [])
        ∧ (d0.next_steps = none → (repairDx d0).next_steps = "Consult healthcare provider") := by
  have hrepair : ∀ d0 : DxAsset,
      0 ≤ (repairDx d0).confidence_score ∧ (repairDx d0).confidence_score ≤ 1
        ∧ ((repairDx d0).risk_level = "High" ∨ (repairDx d0).risk_level = "Medium"
            ∨ (repairDx d0).risk_level = "Low") := by
    intro d0
    refine ⟨le_max_left 0 _, max_le (by norm_num) (min_le_left 1 _), ?_⟩
    have hform : (repairDx d0).risk_level =
        if (d0.risk_level.getD "Medium") ∈ (["High", "Medium", "Low"] : List String) then
          d0.risk_level.getD "Medium" else "Medium" := rfl
    rw [hform]
    by_cases h : (d0.risk_level.getD "Medium") ∈ (["High", "Medium", "Low"] : List String)
    · rw [if_pos h]
      simpa using h
    · rw [if_neg h]
      exact Or.inr (Or.inl rfl)
  constructor
  · intro r d hd
    unfold post_process_results at hd
    obtain ⟨d0, _, rfl⟩ := List.mem_map.mp hd
    exact hrepair d0
  · intro d0
    refine ⟨fun h => ?_, fun h => ?_, fun rl h hmem => ?_, fun h => ?_, fun h => ?_,
      fun h => ?_, fun h => ?_⟩
    · simp [repairDx, h]
    · simp [repairDx, h]
    · simp [repairDx, h, hmem]
    · simp [repairDx, h]
    · simp [repairDx, h]
    · simp [repairDx, h]
    · simp [repairDx, h]

/-- C5 witness: a diagnosis with confidence above 1 and no risk_level is
clamped to 1 and defaulted to Medium. -/
theorem c5_witness :
    (0 ≤ (repairDx c5dx).confidence_score ∧ (repairDx c5dx).confidence_score ≤ 1
      ∧ ((repairDx c5dx).risk_level = "High" ∨ (repairDx c5dx).risk_level = "Medium"
          ∨ (repairDx c5dx).risk_level = "Low"))
    ∧ (repairDx c5dx).risk_level = "Medium"
    ∧ (repairDx c5dx).specialty = "General Medicine" := by
  have h := c5_repair_defaults_and_bounds
  refine ⟨h.1 c5res (repairDx c5dx) ?_, (h.2 c5dx).2.1 rfl, (h.2 c5dx).2.2.2.1 rfl⟩
  decide

/-! ## Claim C6 -/

/-- The batch contributed by one artifact: its records on success, nothing
on failure. -/
theorem ingest_foldl_characterization (files : List Artifact)
    (b : List PatientRecord) (fl : List (String × String)) :
    files.foldl ingestStep (b, fl)
      = (b ++ files.flatMap (fun f => (process_file f).toOption.getD []),
         fl ++ files.filterMap (fun f =>
            match process_file f with
            | .ok _ => none
            | .error e => some (artifactName f, e))) := by
  induction files generalizing b fl with
  | nil => simp
  | cons f t ih =>
    cases h : process_file f with
    | ok recs =>
      simp only [List.foldl_cons, List.flatMap_cons, List.filterMap_cons, ingestStep, h,
        Except.toOption, Option.getD_some, ih]
      simp
    | error e =>
      simp only [List.foldl_cons, List.flatMap_cons, List.filterMap_cons, ingestStep, h,
        Except.toOption, Option.getD_none, ih]
      simp

/-- C6: a failing artifact (a document with no extractable text, an
unsupported declared type, or any other per-artifact error) is recorded as a
(name, reason) failure and does not abort the batch; the final batch is the
concatenation, in input order, of the successful artifacts' records, and
when every artifact fails the batch is empty. -/
theorem c6_ingest_isolates_failures (files : List Artifact) :
    (ingest files).1 = files.flatMap (fun f => (process_file f).toOption.getD [])
      ∧ (ingest files).2 = files.filterMap (fun f =>
          match process_file f with
          | .ok _ => none
          | .error e => some (artifactName f, e))
      ∧ ((∀ f ∈ files, ∃ e, process_file f = .error e) → (ingest files).1 = [])
      ∧ (∀ nm pages, stripStr (extractPdfText pages) = "" →
          process_file (Artifact.pdf nm pages)
            = .error ("Failed to process " ++ nm ++
                ": Error processing PDF file: No text content found in PDF"))
      ∧ (∀ nm ext, process_file (Artifact.other nm ext)
            = .error ("Failed to process " ++ nm ++ ": Unsupported file format: " ++ ext)) := by
  have hchar := ingest_foldl_characterization files [] []
  refine ⟨?_, ?_, ?_, ?_, ?_⟩
  · show (files.foldl ingestStep ([], [])).1 = _
    rw [hchar]
    simp
  · show (files.foldl ingestStep ([], [])).2 = _
    rw [hchar]
    simp
  · intro hall
    show (files.foldl ingestStep ([], [])).1 = _
    rw [hchar]
    simp only [List.nil_append]
    rw [List.flatMap_eq_nil_iff]
    intro f hf
    obtain ⟨e, he⟩ := hall f hf
    rw [he]
    rfl
  · intro nm pages hempty
    simp only [process_file, process_pdf]
    rw [if_pos hempty]
    show Except.error (("Failed to process " ++ nm ++ ": ") ++
        "Error processing PDF file: No text content found in PDF")
      = Except.error ("Failed to process " ++ nm ++
          ": Error processing PDF file: No text content found in PDF")
    have hlit : (": " ++ "Error processing PDF file: No text content found in PDF" : String)
        = ": Error processing PDF file: No text content found in PDF" := by decide
    rw [String.append_assoc, hlit]
  · intro nm ext
    rfl

/-- C6 witness: a PDF with no pages fails with the recorded reason while a
sibling text artifact still contributes its record; a batch of only failing
artifacts is empty. -/
theorem c6_witness :
    (ingest [Artifact.pdf "scan.pdf" [], Artifact.txt "notes.txt" "age: 5"]).1
        = [[("age", Value.str "5")]]
      ∧ (ingest [Artifact.pdf "scan.pdf" [], Artifact.txt "notes.txt" "age: 5"]).2
        = [("scan.pdf",
            "Failed to process scan.pdf: Error processing PDF file: No text content found in PDF")]
      ∧ (ingest [Artifact.pdf "scan.pdf" []]).1 = [] := by
  have h1 := c6_ingest_isolates_failures [Artifact.pdf "scan.pdf" [], Artifact.txt "notes.txt" "age: 5"]
  have h2 := c6_ingest_isolates_failures [Artifact.pdf "scan.pdf" []]
  refine ⟨?_, ?_, ?_⟩
  · rw [h1.1]; decide
  · rw [h1.2.1]; decide
  · refine h2.2.2.1 ?_
    intro f hf
    have hfe : f = Artifact.pdf "scan.pdf" [] := by
      cases hf with
      | head => rfl
      | tail _ hh => cases hh
    rw [hfe]
    exact ⟨"Failed to process scan.pdf: Error processing PDF file: No text content found in PDF",
      by decide⟩

/-! ## Claim C7 -/

/-- C7 counterexample. The claim says that when text is recovered but no
structure is detected, the adapter emits the full text verbatim as a single
clinical-notes record, never discarding raw text. On the unstructured text
`zzz` both the text adapter and the PDF adapter return an empty record list:
the raw text is discarded, and no clinical-notes record exists. -/
theorem c7_counterexample :
    process_file (Artifact.txt "notes.txt" "zzz") = .ok []
      ∧ process_file (Artifact.pdf "scan.pdf" [some "zzz"]) = .ok [] := by
  constructor
  · decide
  · decide

/-- C7 amended: when the parsed record standardizes to nothing (no sections,
no key:value fields, no listable lines), the text and document adapters
return an empty record list — the raw text is dropped, there is no verbatim
clinical-notes fallback. -/
theorem c7_no_structure_yields_empty (nm content : String) :
    (process_file (Artifact.txt nm content) = .ok []
        ↔ standardize_field_names (parseTextRecord content) = [])
      ∧ ∀ pages, stripStr (extractPdfText pages) ≠ "" →
          (process_file (Artifact.pdf nm pages) = .ok []
            ↔ standardize_field_names (parse_medical_text (extractPdfText pages)) = []) := by
  constructor
  · show Except.ok (process_text content) = .ok [] ↔ _
    unfold process_text
    constructor
    · intro h
      by_cases hstd : (standardize_field_names (parseTextRecord content)).isEmpty
      · exact List.isEmpty_iff.mp hstd
      · rw [if_neg hstd] at h
        cases List.cons_ne_nil _ _ (Except.ok.inj h)
    · intro h
      have : (standardize_field_names (parseTextRecord content)).isEmpty := by
        rw [h]; rfl
      rw [if_pos this]
  · intro pages hne
    have hform : process_file (Artifact.pdf nm pages) = Except.ok
        (if (standardize_field_names (parse_medical_text (extractPdfText pages))).isEmpty
          then []
          else [standardize_field_names (parse_medical_text (extractPdfText pages))]) := by
      simp only [process_file, process_pdf]
      rw [if_neg hne]
    rw [hform]
    constructor
    · intro h
      by_cases hstd :
          (standardize_field_names (parse_medical_text (extractPdfText pages))).isEmpty
      · exact List.isEmpty_iff.mp hstd
      · rw [if_neg hstd] at h
        cases List.cons_ne_nil _ _ (Except.ok.inj h)
    · intro h
      have hstd : (standardize_field_names (parse_medical_text (extractPdfText pages))).isEmpty := by
        rw [h]; rfl
      rw [if_pos hstd]

/-- C7 witness: the amended statement on the unstructured text `qqq`. -/
theorem c7_witness : process_file (Artifact.txt "w.txt" "qqq") = .ok [] :=
  (c7_no_structure_yields_empty "w.txt" "qqq").1.mpr (by decide)

/-! ## Claim C8 -/

/-- The JSON standardization loop appends one standardized record per dict
element, unconditionally. -/
theorem processJsonItems_foldl (items : List JsonItem) (acc : List PatientRecord) :
    items.foldl jsonFoldStep acc
      = acc ++ items.filterMap (fun it =>
          match it with
          | JsonItem.dict r => some (standardize_field_names r)
          | JsonItem.nondict => none) := by
  induction items generalizing acc with
  | nil => simp
  | cons it t ih =>
    cases it with
    | dict r =>
      simp only [List.foldl_cons, List.filterMap_cons, jsonFoldStep, ih]
      simp
    | nondict =>
      simp only [List.foldl_cons, List.filterMap_cons, jsonFoldStep, ih]

/-- C8 counterexample. The claim says every record in a batch after
ingestion is non-empty because every adapter path drops
empty-after-normalization records. The JSON adapter appends standardized
records unconditionally, so an empty object in a JSON array survives: the
batch for `[{}, {"age": "5"}]` contains the empty record. -/
theorem c8_counterexample :
    process_file (Artifact.json "p.json"
        (JsonTop.list [JsonItem.dict [], JsonItem.dict [("age", Value.str "5")]]))
        = .ok [[], [("age", Value.str "5")]]
      ∧ ([] : PatientRecord) ∈
          (ingest [Artifact.json "p.json"
            (JsonTop.list [JsonItem.dict [], JsonItem.dict [("age", Value.str "5")]])]).1 := by
  constructor
  · decide
  · decide

/-- C8 amended: only the text and document adapter paths drop
empty-after-normalization records; the tabular and semi-structured paths
append every standardized row or dict element unconditionally, so an empty
record can enter the batch through them. -/
theorem c8_empty_record_policy :
    (∀ nm content r, process_file (Artifact.txt nm content) = .ok r →
        ∀ rec ∈ r, rec ≠ ([] : PatientRecord))
      ∧ (∀ nm pages r, process_file (Artifact.pdf nm pages) = .ok r →
          ∀ rec ∈ r, rec ≠ ([] : PatientRecord))
      ∧ (∀ items, processJsonItems items
          = items.filterMap (fun it =>
              match it with
              | JsonItem.dict rcd => some (standardize_field_names rcd)
              | JsonItem.nondict => none))
      ∧ (∀ rows, processCsvRows rows
          = rows.map (fun rcd => standardize_field_names (cleanColumns rcd))) := by
  refine ⟨?_, ?_, ?_, ?_⟩
  · intro nm content r h rec hrec
    have hr : r = process_text content := (Except.ok.inj h).symm
    subst hr
    unfold process_text at hrec
    by_cases hstd : (standardize_field_names (parseTextRecord content)).isEmpty
    · rw [if_pos hstd] at hrec
      cases hrec
    · rw [if_neg hstd] at hrec
      have : rec = standardize_field_names (parseTextRecord content) := by
        cases hrec with
        | head => rfl
        | tail _ hh => cases hh
      intro hnil
      rw [← this, hnil] at hstd
      exact hstd rfl
  · intro nm pages r h rec hrec
    cases hp : process_pdf pages with
    | error e =>
      have : process_file (Artifact.pdf nm pages) = .error ("Failed to process " ++ nm ++ ": " ++ e) := by
        simp only [process_file, hp]
      rw [this] at h
      cases h
    | ok recs =>
      have hfile : process_file (Artifact.pdf nm pages) = .ok recs := by
        simp only [process_file, hp]
      rw [hfile] at h
      have hr : r = recs := (Except.ok.inj h).symm
      subst hr
      unfold process_pdf at hp
      by_cases hempty : stripStr (extractPdfText pages) = ""
      · rw [if_pos hempty] at hp
        cases hp
      · rw [if_neg hempty] at hp
        have hrecs := Except.ok.inj hp
        subst hrecs
        by_cases hstd :
            (standardize_field_names (parse_medical_text (extractPdfText pages))).isEmpty
        · rw [if_pos hstd] at hrec
          cases hrec
        · rw [if_neg hstd] at hrec
          have : rec = standardize_field_names (parse_medical_text (extractPdfText pages)) := by
            cases hrec with
            | head => rfl
            | tail _ hh => cases hh
          intro hnil
          rw [← this, hnil] at hstd
          exact hstd rfl
  · intro items
    exact processJsonItems_foldl items []
  · intro rows
    rfl

/-- C8 witness: on the structured text `age: 5` the text adapter emits a
single non-empty record. -/
theorem c8_witness : ([("age", Value.str "5")] : PatientRecord) ≠ [] := by
  refine c8_empty_record_policy.1 "w.txt" "age: 5" [[("age", Value.str "5")]] ?_ _ ?_
  · decide
  · exact List.mem_singleton.mpr rfl

/-! ## Claim C9 -/

/-- `Rat.floor` agrees with the floor of the archimedean order structure. -/
theorem ratFloor_eq_intFloor (q : ℚ) : q.floor = ⌊q⌋ := by
  rw [Rat.floor_def', Rat.floor_def]

/-- The filled-field count never exceeds the field count. -/
theorem filled_le_total (data : List PatientRecord) :
    (data.map (fun r => (r.filter (fun kv => valueFilled kv.2)).length)).sum
      ≤ (data.map (fun r => r.length)).sum := by
  induction data with
  | nil => simp
  | cons r t ih =>
    simp only [List.map_cons, List.sum_cons]
    exact Nat.add_le_add (List.length_filter_le _ _) ih

theorem calculate_completeness_bounds (data : List PatientRecord) :
    0 ≤ calculate_completeness data ∧ calculate_completeness data ≤ 100 := by
  unfold calculate_completeness
  by_cases he : data.isEmpty
  · rw [if_pos he]
    norm_num
  · rw [if_neg he]
    by_cases ht : 0 < (data.map (fun r => r.length)).sum
    · rw [if_pos ht]
      have hft := filled_le_total data
      have htq : (0 : ℚ) < ((((data.map (fun r => r.length)).sum : Nat)) : ℚ) := by
        exact_mod_cast ht
      have hdiv :
          (((((data.map (fun r => (r.filter (fun kv => valueFilled kv.2)).length)).sum : Nat)) : ℚ)
            / ((((data.map (fun r => r.length)).sum : Nat)) : ℚ)) ≤ 1 := by
        rw [div_le_one htq]
        exact_mod_cast hft
      constructor
      · positivity
      · nlinarith
    · rw [if_neg ht]
      norm_num

theorem foldl_inter_subset (rest : List PatientRecord) (A : Finset String) :
    rest.foldl (fun a s => a ∩ fieldSetRaw s) A ⊆ A := by
  induction rest generalizing A with
  | nil => exact Finset.Subset.refl A
  | cons s t ih => exact (ih (A ∩ fieldSetRaw s)).trans Finset.inter_subset_left

theorem subset_foldl_union (rest : List PatientRecord) (A : Finset String) :
    A ⊆ rest.foldl (fun a s => a ∪ fieldSetRaw s) A := by
  induction rest generalizing A with
  | nil => exact Finset.Subset.refl A
  | cons s t ih => exact Finset.subset_union_left.trans (ih (A ∪ fieldSetRaw s))

theorem calculate_consistency_bounds (data : List PatientRecord) :
    0 ≤ calculate_consistency data ∧ calculate_consistency data ≤ 100 := by
  unfold calculate_consistency
  by_cases hlen : data.length ≤ 1
  · rw [if_pos hlen]
    norm_num
  · rw [if_neg hlen]
    cases data with
    | nil => simp at hlen
    | cons r rest =>
      dsimp only
      by_cases hu : rest.foldl (fun a s => a ∪ fieldSetRaw s) (fieldSetRaw r) = ∅
      · rw [if_pos hu]
        norm_num
      · rw [if_neg hu]
        have hsub : rest.foldl (fun a s => a ∩ fieldSetRaw s) (fieldSetRaw r)
            ⊆ rest.foldl (fun a s => a ∪ fieldSetRaw s) (fieldSetRaw r) :=
          (foldl_inter_subset rest (fieldSetRaw r)).trans (subset_foldl_union rest (fieldSetRaw r))
        have hcard := Finset.card_le_card hsub
        have hpos : 0 < (rest.foldl (fun a s => a ∪ fieldSetRaw s) (fieldSetRaw r)).card :=
          Finset.card_pos.mpr (Finset.nonempty_iff_ne_empty.mpr hu)
        have hposq : (0 : ℚ)
            < ((rest.foldl (fun a s => a ∪ fieldSetRaw s) (fieldSetRaw r)).card : ℚ) := by
          exact_mod_cast hpos
        have hdiv : ((rest.foldl (fun a s => a ∩ fieldSetRaw s) (fieldSetRaw r)).card : ℚ)
            / ((rest.foldl (fun a s => a ∪ fieldSetRaw s) (fieldSetRaw r)).card : ℚ) ≤ 1 := by
          rw [div_le_one hposq]
          exact_mod_cast hcard
        constructor
        · positivity
        · nlinarith

/-- Bounds for the half-to-even rounding of `pyRound1` at the tenfold
scale. -/
theorem pyRoundHalfEven_bounds (t : ℚ) (h0 : 0 ≤ t) (h1 : t ≤ 1000) :
    0 ≤ pyRoundHalfEven t ∧ pyRoundHalfEven t ≤ 1000 := by
  unfold pyRoundHalfEven
  rw [ratFloor_eq_intFloor]
  have hfl0 : (0 : ℤ) ≤ ⌊t⌋ := Int.floor_nonneg.mpr h0
  have hfl1000 : ⌊t⌋ ≤ 1000 := by
    have h2 := Int.floor_le_floor (α := ℚ) h1
    have h3 : ⌊(1000 : ℚ)⌋ = 1000 := by norm_num
    omega
  by_cases hc1 : t - (⌊t⌋ : ℚ) < 1 / 2
  · rw [if_pos hc1]
    exact ⟨hfl0, hfl1000⟩
  · rw [if_neg hc1]
    have hhalf : 1 / 2 ≤ t - (⌊t⌋ : ℚ) := le_of_not_lt hc1
    have hltq : (⌊t⌋ : ℚ) < 1000 := by linarith
    have hlt : ⌊t⌋ < 1000 := by exact_mod_cast hltq
    by_cases hc2 : 1 / 2 < t - (⌊t⌋ : ℚ)
    · rw [if_pos hc2]
      omega
    · rw [if_neg hc2]
      by_cases hc3 : ⌊t⌋ % 2 = 0
      · rw [if_pos hc3]
        exact ⟨hfl0, hfl1000⟩
      · rw [if_neg hc3]
        omega

theorem pyRound1_bounds (q : ℚ) (h0 : 0 ≤ q) (h1 : q ≤ 100) :
    0 ≤ pyRound1 q ∧ pyRound1 q ≤ 100 := by
  obtain ⟨hr0, hr1⟩ := pyRoundHalfEven_bounds (q * 10) (by positivity) (by linarith)
  have hq0 : (0 : ℚ) ≤ (pyRoundHalfEven (q * 10) : ℚ) := by exact_mod_cast hr0
  have hq1 : ((pyRoundHalfEven (q * 10)) : ℚ) ≤ 1000 := by exact_mod_cast hr1
  unfold pyRound1
  constructor
  · positivity
  · rw [div_le_iff₀ (by norm_num : (0 : ℚ) < 10)]
    linarith

theorem pyRound1_hundred : pyRound1 100 = 100 := by decide

/-- C9 counterexample. The claim says the assessor yields consistency 100
for any batch with at most one record, the empty batch included. The
assessor short-circuits the empty batch and reports consistency 0 (even
though the internal `_calculate_consistency` helper would return 100). -/
theorem c9_counterexample :
    (assess_data_quality []).consistency = 0
      ∧ ¬ (assess_data_quality []).consistency = 100
      ∧ calculate_consistency [] = 100 := by
  refine ⟨rfl, by norm_num [assess_data_quality], by decide⟩

/-- C9 amended: the assessor's completeness and consistency are always in
[0,100]; the empty batch yields completeness 0 and consistency 0 (the
assessor's early return), and a batch with exactly one record yields
consistency 100. -/
theorem c9_metric_bounds (data : List PatientRecord) :
    0 ≤ (assess_data_quality data).completeness
      ∧ (assess_data_quality data).completeness ≤ 100
      ∧ 0 ≤ (assess_data_quality data).consistency
      ∧ (assess_data_quality data).consistency ≤ 100
      ∧ (data = [] → (assess_data_quality data).completeness = 0
          ∧ (assess_data_quality data).consistency = 0)
      ∧ (data.length = 1 → (assess_data_quality data).consistency = 100) := by
  by_cases he : data.isEmpty
  · have hdata : data = [] := List.isEmpty_iff.mp he
    subst hdata
    exact ⟨le_refl 0, by norm_num [assess_data_quality], le_refl 0,
      by norm_num [assess_data_quality], fun _ => ⟨rfl, rfl⟩,
      fun h => absurd h (by decide)⟩
  · have hcompl : (assess_data_quality data).completeness
        = pyRound1 (calculate_completeness data) := by
      unfold assess_data_quality
      rw [if_neg he]
    have hcons : (assess_data_quality data).consistency
        = pyRound1 (calculate_consistency data) := by
      unfold assess_data_quality
      rw [if_neg he]
    obtain ⟨hc0, hc1⟩ := calculate_completeness_bounds data
    obtain ⟨hs0, hs1⟩ := calculate_consistency_bounds data
    obtain ⟨hrc0, hrc1⟩ := pyRound1_bounds _ hc0 hc1
    obtain ⟨hrs0, hrs1⟩ := pyRound1_bounds _ hs0 hs1
    refine ⟨hcompl ▸ hrc0, hcompl ▸ hrc1, hcons ▸ hrs0, hcons ▸ hrs1, ?_, ?_⟩
    · intro hd
      subst hd
      simp at he
    · intro hlen
      have h100 : calculate_consistency data = 100 := by
        unfold calculate_consistency
        rw [if_pos (by omega)]
      rw [hcons, h100, pyRound1_hundred]

/-- C9 witness: a one-record batch has completeness within bounds and
consistency exactly 100. -/
theorem c9_witness :
    0 ≤ (assess_data_quality [[("age", Value.str "5")]]).completeness
      ∧ (assess_data_quality [[("age", Value.str "5")]]).consistency = 100 := by
  have h := c9_metric_bounds [[("age", Value.str "5")]]
  exact ⟨h.1, h.2.2.2.2.2 rfl⟩
